/-
Verification of the multi-source artwork recommendation pipeline
(backend of the ai-decor repository).

The Python source is shallowly embedded in Lean 4:
  * floating point numbers are modelled by `ℚ` (the code only adds,
    multiplies, divides and compares; no transcendental behaviour is
    load-bearing for the verified properties),
  * `dict.get(key, default)` access is modelled by `Option` fields with
    `Option.getD`, plain `dict[key]` access by fallible `Option` matches,
  * each network / LLM call is an oracle parameter (an `Except` or an
    outcome datatype) supplied by the environment, mirroring the
    `try/except` structure of the routes,
  * `asyncio.gather(..., return_exceptions=True)` over per-candidate
    coroutines is modelled by a `List.map` over per-candidate outcomes
    (the per-candidate function is total, as in the source every
    exception inside it is caught),
  * FAISS `IndexFlatL2.search` (exact k-nearest-neighbour search by
    squared L2 distance, ascending) is modelled by sorting all stored
    vectors by squared distance and taking `k`; `faiss.normalize_L2`
    divides a vector by its L2 norm, whose reciprocal is irrational in
    general, so the reciprocal norm is an explicit parameter of the model,
  * pydantic field validation of response models is not modelled except
    where a claim is about it (`RecommendationRequest.limit`); wall-clock
    time (`query_time`) is outside the model.

Embedded files:
  backend/routes/recommendations.py
  backend/db/faiss_client.py
  backend/agents/store_inventory_agent.py
  backend/models/recommendation.py
-/
import Mathlib

namespace AiDecor

/-! ### String helpers

Models of the Python string operations used by the pipeline:
`str.lower`, `str.split`, `' '.join`, `in` (substring test),
`str.split('?')[0]`, `str.replace`, `str.title`. -/

/-- `needle` occurs at the start of `hay` (`str.startswith`). -/
def leadsWith : List Char → List Char → Bool
  | [], _ => true
  | _ :: _, [] => false
  | a :: as, b :: bs => a = b && leadsWith as bs

/-- Python `needle in hay` substring test. -/
def containsSub (needle : List Char) : List Char → Bool
  | [] => needle.isEmpty
  | c :: rest => leadsWith needle (c :: rest) || containsSub needle rest

/-- Python `str.lower()` (ASCII behaviour). -/
def strLower (s : String) : String :=
  String.mk (s.data.map Char.toLower)

/-- Accumulator-based whitespace split; models Python `str.split()`
(splitting on runs of spaces, no empty words). -/
def splitWsAux : List Char → List Char → List (List Char)
  | [], acc => if acc.isEmpty then [] else [acc.reverse]
  | c :: rest, acc =>
    if c = ' ' then
      if acc.isEmpty then splitWsAux rest [] else acc.reverse :: splitWsAux rest []
    else splitWsAux rest (c :: acc)

/-- Python `str.split()` on a `String`. -/
def splitWs (s : String) : List String :=
  (splitWsAux s.data []).map String.mk

/-- Python `' '.join(xs)`. -/
def joinSpace : List String → String
  | [] => ""
  | [s] => s
  | s :: rest => s ++ " " ++ joinSpace rest

/-- Python `str.replace(' ', '+')` (used for the mock purchase URLs). -/
def replaceSpacePlus (s : String) : String :=
  String.mk (s.data.map fun c => if c = ' ' then '+' else c)

/-- Word-wise capitalisation; models Python `str.title()` for the
space-separated identifiers that appear in the source. -/
def titleCase (s : String) : String :=
  joinSpace ((splitWs s).map fun w =>
    String.mk (match w.data with
      | [] => []
      | c :: rest => c.toUpper :: rest.map Char.toLower))

/-- Python `category.replace('_', ' ')`. -/
def underscoreToSpace (s : String) : String :=
  String.mk (s.data.map fun c => if c = '_' then ' ' else c)

/-! ### `extract_photo_id` (routes/recommendations.py, lines 321-335)

The two regular expressions
  `/photo[s]?/[^/]*-([A-Za-z0-9_-]+)`  and  `/photo-\d+-([A-Za-z0-9_-]+)\?`
are modelled by explicit leftmost scans with the same greedy /
backtracking result as Python `re.search`. -/

/-- Character class `[A-Za-z0-9_-]`. -/
def isWordChar (c : Char) : Bool :=
  c.isAlphanum || c = '_' || c = '-'

/-- The capture group of `-([A-Za-z0-9_-]+)` against a run of
non-`/` characters: the group after the *last* `'-'` that is followed by
at least one word character (greedy `[^/]*` with backtracking). -/
def dashGroup : List Char → Option (List Char)
  | [] => none
  | c :: rest =>
    match dashGroup rest with
    | some g => some g
    | none =>
      if c = '-' then
        let g := rest.takeWhile isWordChar
        if g.isEmpty then none else some g
      else none

/-- Try the literal prefix `/photo[s]?/` at the current position; on
success return the following maximal run of non-`/` characters. -/
def matchPhotoSlash : List Char → Option (List Char)
  | '/' :: 'p' :: 'h' :: 'o' :: 't' :: 'o' :: rest =>
    match rest with
    | 's' :: '/' :: tail => some (tail.takeWhile (· ≠ '/'))
    | '/' :: tail => some (tail.takeWhile (· ≠ '/'))
    | _ => none
  | _ => none

/-- Leftmost search of `/photo[s]?/[^/]*-([A-Za-z0-9_-]+)`. -/
def findRegex1 : List Char → Option (List Char)
  | [] => none
  | c :: rest =>
    match (match matchPhotoSlash (c :: rest) with
           | some run => dashGroup run
           | none => none) with
    | some g => some g
    | none => findRegex1 rest

/-- Try `/photo-\d+-([A-Za-z0-9_-]+)\?` at the current position. -/
def matchPhotoDash : List Char → Option (List Char)
  | '/' :: 'p' :: 'h' :: 'o' :: 't' :: 'o' :: '-' :: rest =>
    let ds := rest.takeWhile Char.isDigit
    if ds.isEmpty then none
    else
      match rest.drop ds.length with
      | '-' :: tail =>
        let g := tail.takeWhile isWordChar
        if g.isEmpty then none
        else
          match tail.drop g.length with
          | '?' :: _ => some g
          | _ => none
      | _ => none
  | _ => none

/-- Leftmost search of `/photo-\d+-([A-Za-z0-9_-]+)\?`. -/
def findRegex2 : List Char → Option (List Char)
  | [] => none
  | c :: rest =>
    match matchPhotoDash (c :: rest) with
    | some g => some g
    | none => findRegex2 rest

/-- `extract_photo_id(url)` from `get_fast_recommendations`
(routes/recommendations.py, lines 321-335): the visual identity key of
an image URL. -/
def extract_photo_id (url : String) : String :=
  if url = "" then url
  else if containsSub "unsplash.com".data url.data then
    match findRegex1 url.data with
    | some g => String.mk g
    | none =>
      match findRegex2 url.data with
      | some g => String.mk g
      | none => String.mk (url.data.takeWhile (· ≠ '?'))
  else String.mk (url.data.takeWhile (· ≠ '?'))

/-! ### Data model

Records mirroring the dictionaries / pydantic models of the source.
Fields read with `dict.get(key)` (which may be absent) are `Option`s;
fields read with `dict.get(key, [])` are plain lists. -/

/-- A store returned by `GeoFinderAgent.find_nearby_stores` (only used
to fill the `stores` field of a recommendation; the dict re-formatting
at lines 601-614 is a field shuffle and is modelled by keeping the
record itself). -/
structure NearbyStore where
  name : String
  address : String
  distance : ℚ
  lat : ℚ
  lng : ℚ
  rating : Option String := none
  phone : Option String := none
  website : Option String := none
  is_open : Option Bool := none
  deriving Repr, DecidableEq

/-- One FAISS metadata entry (`FAISSClient.metadata[i]`), with the keys
the routes read from it. -/
structure ArtworkMeta where
  id : Option String := none
  title : Option String := none
  artist : Option String := none
  price : Option ℤ := none
  image_url : Option String := none
  thumbnail_url : Option String := none
  style : Option String := none
  tags : List String := []
  dimensions : Option String := none
  medium : Option String := none
  stores : List NearbyStore := []
  deriving Repr, DecidableEq

/-- One result dictionary returned by `StoreInventoryAgent` providers,
with the keys the routes read from it. -/
structure StoreItem where
  id : Option String := none
  title : Option String := none
  artist : Option String := none
  price : Option String := none
  image_url : Option String := none
  thumbnail_url : Option String := none
  purchase_url : Option String := none
  download_url : Option String := none
  source : Option String := none
  dimensions : Option String := none
  style : Option String := none
  tags : List String := []
  deriving Repr, DecidableEq

/-- One item of the curated local catalog (`data/local_catalog.json`).
The routes index these keys directly (`item['title']`, ...), so they are
total fields. `print_services`/`attribution` are carried opaquely. -/
structure LocalItem where
  id : String
  title : String
  artist : String
  price : String
  image_url : String
  thumbnail_url : String
  category : String
  tags : List String := []
  width : ℕ := 0
  height : ℕ := 0
  download_url : String := ""
  description : String := ""
  deriving Repr, DecidableEq

/-- One trending style produced by `TrendIntelAgent.get_trending_styles`
(trend_intel_agent.py builds every entry with a `"style"` key). -/
structure Trend where
  style : String
  description : String := ""
  source : String := ""
  relevance_score : ℚ := 1/2
  tags : List String := []
  deriving Repr, DecidableEq

/-- The recommendation entity as constructed by the routes.  The pydantic
schema `ArtworkRecommendation` silently drops constructor keywords that
are not declared fields (`purchase_url`, `download_url`, `source`,
`purchase_options`, `print_on_demand`, `attribution`); the model keeps
the first three since the claims speak about provenance and purchase
links, and drops the last three. -/
structure ArtworkRec where
  id : String
  title : String
  artist : String
  price : String
  image_url : String
  thumbnail_url : Option String := none
  match_score : ℚ
  tags : List String := []
  reasoning : String := ""
  stores : List NearbyStore := []
  dimensions : Option String := none
  medium : Option String := none
  style : Option String := none
  purchase_url : Option String := none
  download_url : Option String := none
  source : Option String := none
  deriving Repr, DecidableEq

/-- `RecommendationRequest` (models/recommendation.py) after validation. -/
structure RecommendationRequest where
  style_vector : List ℚ := []
  user_style : Option String := none
  color_preferences : Option (List String) := none
  room_style : Option String := none
  colors : Option (List String) := none
  user_location : Option (Option ℚ × Option ℚ × Option ℕ) := none
  limit : ℕ := 3
  deriving Repr, DecidableEq

/-- `RecommendationResponse` (models/recommendation.py); `query_time`
is wall-clock time and outside the model. -/
structure RecommendationResponse where
  recommendations : List ArtworkRec
  total_matches : ℕ
  trends : List String := []
  deriving Repr, DecidableEq

/-- Python `a or b` on optional strings (`None` and `""` are falsy). -/
def pyOrS (a b : Option String) : Option String :=
  match a with
  | some s => if s = "" then b else some s
  | none => b

/-- Python `a or b or default` on optional strings. -/
def pyOrD (a : Option String) (d : String) : String :=
  match a with
  | some s => if s = "" then d else s
  | none => d

/-- `request.user_style or request.room_style or "Modern"`
(routes/recommendations.py, lines 317 and 531). -/
def roomStyleOf (req : RecommendationRequest) : String :=
  pyOrD (pyOrS req.user_style req.room_style) "Modern"

/-! ### VectorMatcher: `FAISSClient` (db/faiss_client.py) -/

/-- The FAISS client state: `index` is `None` when never created, and a
list of stored vectors otherwise; `metadata` is the side list. -/
structure FAISSClient where
  index : Option (List (List ℚ)) := none
  metadata : List ArtworkMeta := []
  deriving Repr, DecidableEq

/-- `faiss.normalize_L2`: division of a vector by its L2 norm.  The
reciprocal norm is irrational in general, so it is supplied as the
explicit factor `invNorm`; every verified property holds for all values
of it. -/
def normalize_L2 (v : List ℚ) (invNorm : ℚ) : List ℚ :=
  v.map (· * invNorm)

/-- Squared L2 distance, the metric `IndexFlatL2` reports. -/
def sqL2 (a b : List ℚ) : ℚ :=
  ((a.zip b).map fun p => (p.1 - p.2) ^ 2).sum

/-- `IndexFlatL2.search`: exact k-nearest-neighbour search — every
stored vector is scored by squared distance to the query, the scored
index list is sorted ascending by distance and the first `k` hits are
returned as (distance, vector index) pairs. -/
def indexSearch (vs : List (List ℚ)) (q : List ℚ) (k : ℕ) : List (ℚ × ℕ) :=
  ((vs.enum.map fun p => (sqL2 q p.2, p.1)).insertionSort fun a b => a.1 ≤ b.1).take k

/-- `FAISSClient.search` (faiss_client.py, lines 113-150).  Returns the
pair of parallel lists (distances, metadata).  `qInv` is the reciprocal
L2 norm of the query used by `faiss.normalize_L2` (see `normalize_L2`). -/
def FAISSClient.search (c : FAISSClient) (query : List ℚ) (qInv : ℚ) (k : ℕ) :
    List ℚ × List ArtworkMeta :=
  match c.index with
  | none => ([], [])
  | some vs =>
    if vs.length = 0 then ([], [])
    else
      let qn := normalize_L2 query qInv
      let hits := indexSearch vs qn (min k vs.length)
      let kept := hits.filter fun p => p.2 < c.metadata.length
      (kept.map Prod.fst, kept.filterMap fun p => c.metadata.get? p.2)

/-- `FAISSClient.get_total_vectors` (faiss_client.py, lines 198-200). -/
def FAISSClient.get_total_vectors (c : FAISSClient) : ℕ :=
  match c.index with
  | none => 0
  | some vs => vs.length

/-- Construction of the client (faiss_client.py, lines 18-33 and 59-74):
if the index file exists it is loaded — and `load_index` re-raises any
load failure —, otherwise a fresh empty index is created. -/
def mkFAISSClient (fileExists : Bool)
    (loadOutcome : Except Unit (List (List ℚ) × List ArtworkMeta)) :
    Except Unit FAISSClient :=
  if fileExists then
    match loadOutcome with
    | .ok (vs, ms) => .ok { index := some vs, metadata := ms }
    | .error _ => .error ()
  else
    .ok { index := some [], metadata := [] }

/-! ### Match score (routes/recommendations.py, lines 286-288 and 491-493) -/

/-- `similarity = 1.0 / (1.0 + dist); match_score = similarity * 100`,
computed identically in `get_fast_recommendations` and in
`get_recommendations`. -/
def match_score_of (dist : ℚ) : ℚ :=
  1 / (1 + dist) * 100

/-! ### ProviderChain: `StoreInventoryAgent.search_artwork`
(agents/store_inventory_agent.py, lines 81-177)

Each provider stage is guarded by `if self.<key> and len(results) < limit`;
the Unsplash and Tavily stages additionally `return results[:limit]` as
soon as the limit is reached, which (together with the guards of the
remaining stages and the final `return results[:limit]`) is equivalent to
skipping every later stage once the count reaches the limit.  A provider
call that raises is caught and contributes nothing.  The model records
the order in which the providers are actually invoked. -/

inductive Provider
  | unsplash | tavily | pixabay | pexels | google
  deriving Repr, DecidableEq

/-- Credential presence flags of `StoreInventoryAgent.__init__`. -/
structure StoreAgent where
  unsplash_access_key : Bool := false
  tavily_api_key : Bool := false
  pixabay_api_key : Bool := false
  pexels_api_key : Bool := false
  google_api_key : Bool := false
  deriving Repr, DecidableEq

def providerKey (a : StoreAgent) : Provider → Bool
  | .unsplash => a.unsplash_access_key
  | .tavily => a.tavily_api_key
  | .pixabay => a.pixabay_api_key
  | .pexels => a.pexels_api_key
  | .google => a.google_api_key

/-- The fixed priority order of the chain. -/
def chainOrder : List Provider :=
  [.unsplash, .tavily, .pixabay, .pexels, .google]

/-- A provider call either returns a result list or raises. -/
abbrev ProviderOracle := Provider → String → Except Unit (List StoreItem)

structure ChainState where
  results : List StoreItem := []
  invoked : List Provider := []
  deriving Repr, DecidableEq

/-- One provider stage: invoked iff its credential is configured and the
accumulated count is still below the limit; an exception is caught and
contributes nothing (`except ... print`). -/
def stageRun (env : ProviderOracle) (query : String) (limit : ℕ)
    (p : Provider) (key : Bool) (s : ChainState) : ChainState :=
  if key ∧ s.results.length < limit then
    { results := s.results ++ (match env p query with
        | .ok rs => rs
        | .error _ => [])
      invoked := s.invoked ++ [p] }
  else s

/-- Run the stages of the chain in order. -/
def runStages (env : ProviderOracle) (query : String) (limit : ℕ) :
    List (Provider × Bool) → ChainState → ChainState
  | [], s => s
  | pk :: rest, s => runStages env query limit rest (stageRun env query limit pk.1 pk.2 s)

def stagesOf (a : StoreAgent) : List (Provider × Bool) :=
  chainOrder.map fun p => (p, providerKey a p)

/-- Python-truthy optional string as extra search term
(`if style: search_terms.append(style)`). -/
def optTerm : Option String → List String
  | some s => if s = "" then [] else [s]
  | none => []

/-- `full_query = " ".join(search_terms)` (lines 107-112). -/
def fullQuery (query : String) (style color : Option String) : String :=
  joinSpace ([query] ++ optTerm style ++ optTerm color)

/-- `_get_mock_artwork_with_real_links` (lines 501-635): five curated
fallback items parameterised by the query, truncated to `limit`. -/
def mock_artwork_with_real_links (query : String) (limit : ℕ) : List StoreItem :=
  ([{ id := some "mock_society6_001"
      title := some (titleCase query ++ " Canvas Print")
      artist := some "Society6 Artists"
      price := some "$89.99"
      image_url := some "https://images.unsplash.com/photo-1541961017774-22349e4a1262?w=800"
      thumbnail_url := some "https://images.unsplash.com/photo-1541961017774-22349e4a1262?w=400"
      purchase_url := some ("https://society6.com/s?q=" ++ replaceSpacePlus query ++ "+wall+art")
      source := some "Society6 (Curated)"
      dimensions := some "Multiple sizes available"
      tags := [query, "canvas", "society6"] },
    { id := some "mock_redbubble_001"
      title := some (titleCase query ++ " Art Print")
      artist := some "Redbubble Artists"
      price := some "$24.99"
      image_url := some "https://images.unsplash.com/photo-1547826039-bfc35e0f1ea8?w=800"
      thumbnail_url := some "https://images.unsplash.com/photo-1547826039-bfc35e0f1ea8?w=400"
      purchase_url := some ("https://www.redbubble.com/shop/?query=" ++ replaceSpacePlus query ++ "+art&ref=search_box")
      source := some "Redbubble (Curated)"
      dimensions := some "Multiple sizes available"
      tags := [query, "poster", "redbubble"] },
    { id := some "mock_artfinder_001"
      title := some ("Original " ++ titleCase query ++ " Artwork")
      artist := some "Artfinder Gallery"
      price := some "$450.00"
      image_url := some "https://images.unsplash.com/photo-1579783902614-a3fb3927b6a5?w=800"
      thumbnail_url := some "https://images.unsplash.com/photo-1579783902614-a3fb3927b6a5?w=400"
      purchase_url := some ("https://www.artfinder.com/art/?q=" ++ replaceSpacePlus query)
      source := some "Artfinder (Curated)"
      dimensions := some "Varies by piece"
      tags := [query, "original", "artfinder"] },
    { id := some "mock_minted_001"
      title := some (titleCase query ++ " Limited Edition Print")
      artist := some "Minted Artists"
      price := some "$165.00"
      image_url := some "https://images.unsplash.com/photo-1561214115-f2f134cc4912?w=800"
      thumbnail_url := some "https://images.unsplash.com/photo-1561214115-f2f134cc4912?w=400"
      purchase_url := some ("https://www.minted.com/art/wall-art?query=" ++ replaceSpacePlus query)
      source := some "Minted (Curated)"
      dimensions := some "Multiple sizes"
      tags := [query, "limited edition", "minted"] },
    { id := some "mock_icanvas_001"
      title := some (titleCase query ++ " Canvas Wall Art")
      artist := some "iCanvas Collection"
      price := some "$119.99"
      image_url := some "https://images.unsplash.com/photo-1583847268964-b28dc8f51f92?w=800"
      thumbnail_url := some "https://images.unsplash.com/photo-1583847268964-b28dc8f51f92?w=400"
      purchase_url := some ("https://www.icanvas.com/search?q=" ++ replaceSpacePlus query)
      source := some "iCanvas (Curated)"
      dimensions := some "Multiple sizes available"
      tags := [query, "canvas", "icanvas"] }] : List StoreItem).take limit

/-- `StoreInventoryAgent.search_artwork` (lines 81-177).  Returns the
result list and, for the verification of the chain policy, the ordered
list of providers that were invoked. -/
def search_artwork (a : StoreAgent) (env : ProviderOracle)
    (query : String) (style color : Option String) (limit : ℕ) :
    List StoreItem × List Provider :=
  let q := fullQuery query style color
  let s := runStages env q limit (stagesOf a) {}
  let results := if s.results.isEmpty then mock_artwork_with_real_links query limit
                 else s.results
  (results.take limit, s.invoked)

/-! ### Local catalog scoring (`get_local_catalog_recommendations`,
routes/recommendations.py, lines 157-189) -/

/-- Number of style keywords occurring in the item's
title + description + tags text (case-insensitive substring test). -/
def keywordScore (style : String) (item : LocalItem) : ℕ :=
  let text := strLower (item.title ++ " " ++ item.description ++ " " ++ joinSpace item.tags)
  ((splitWs (strLower style)).filter fun kw => containsSub kw.data text.data).length

/-- `get_local_catalog_recommendations(style, limit)`.  `randSample` is
the oracle for `random.sample(LOCAL_CATALOG, min(limit, len(...)))`,
which returns exactly `min(limit, len(catalog))` items; the model
enforces the length by truncation. -/
def get_local_catalog_recommendations (catalog : List LocalItem) (style : String)
    (limit : ℕ) (randSample : List LocalItem) : List LocalItem :=
  if catalog.isEmpty then []
  else
    let scored := (catalog.map fun it => (keywordScore style it, it)).filter
      fun p => 0 < p.1
    if ¬ scored.isEmpty then
      ((scored.insertionSort fun a b => b.1 ≤ a.1).take limit).map Prod.snd
    else
      randSample.take (min limit catalog.length)

/-! ### Per-candidate enrichment: `_process_artwork_recommendation`
(routes/recommendations.py, lines 53-154) -/

/-- Outcome of the `asyncio.wait_for(store_agent.search_artwork(...), 3.0)`
call for one candidate. -/
inductive StoreOutcome
  | ok (results : List StoreItem)
  | timeout
  | failed
  deriving Repr, DecidableEq

/-- Outcome of a `chat_agent.generate_reasoning(...)` call as seen by the
route's `try/except` (the agent itself falls back to a template and never
raises, but the routes still guard the call). -/
inductive ReasonOutcome
  | ok (text : String)
  | failed
  deriving Repr, DecidableEq

def placeholderURL : String := "https://via.placeholder.com/400"

/-- Python `f"{score:.0f}"` (round-half-even is approximated by `round`;
no verified property depends on the reasoning text). -/
def scorePct (score : ℚ) : String := toString (round score)

/-- Template reasoning used on LLM failure, in `get_fast_recommendations`
(line 291) and `_process_artwork_recommendation` (line 133). -/
def fallbackTemplate (style : String) (score : ℚ) : String :=
  "This " ++ strLower style ++
    " piece matches your room's aesthetic with a " ++ scorePct score ++
    "% compatibility score."

def search_query_variations : List String :=
  ["wall art", "canvas print", "framed art", "poster print"]

/-- The diversified search query of `_process_artwork_recommendation`
(lines 78-87). -/
def buildSearchQuery (meta : ArtworkMeta) (idx : ℕ) : String :=
  let style := meta.style.getD "modern"
  if ¬ meta.tags.isEmpty ∧ idx < meta.tags.length then
    style ++ " " ++ meta.tags.getD idx "" ++ " wall art"
  else if ¬ meta.tags.isEmpty then
    style ++ " " ++ meta.tags.headD "" ++ " art print"
  else
    style ++ " " ++ search_query_variations.getD (idx % 4) ""

/-- `_process_artwork_recommendation` (lines 53-154): start from the
FAISS metadata defaults; if the store search succeeded with a non-empty
list, the *first* result replaces the display fields; on timeout or
failure the defaults stay.  The function is total: every exception
inside the Python coroutine is caught. -/
def processArtworkRecommendation (meta : ArtworkMeta) (score : ℚ)
    (store : StoreOutcome) (reason : ReasonOutcome) : ArtworkRec :=
  let base : ArtworkRec :=
    { id := meta.id.getD "unknown"
      title := meta.title.getD "Untitled"
      artist := meta.artist.getD "Unknown Artist"
      price := "$" ++ toString (meta.price.getD 0)
      image_url := meta.image_url.getD placeholderURL
      thumbnail_url := meta.thumbnail_url
      match_score := score
      tags := meta.tags
      reasoning :=
        match reason with
        | .ok s => s
        | .failed => fallbackTemplate (meta.style.getD "Contemporary") score
      stores := meta.stores
      dimensions := some (meta.dimensions.getD "Standard")
      medium := meta.medium
      style := some (meta.style.getD "Contemporary")
      purchase_url := none
      download_url := none
      source := some "Local Catalog" }
  match store with
  | .ok (r :: _) =>
    { base with
      title := r.title.getD base.title
      artist := r.artist.getD base.artist
      price := r.price.getD base.price
      image_url := r.image_url.getD base.image_url
      thumbnail_url := match r.thumbnail_url with
        | some t => some t
        | none => base.thumbnail_url
      purchase_url := r.purchase_url
      download_url := r.download_url
      source := r.source }
  | .ok [] => base
  | .timeout => base
  | .failed => base

/-- The parallel `asyncio.gather` over `_process_artwork_recommendation`
tasks (lines 489-511): one task per `(distance, metadata)` pair; the
results are collected in task order and none is an exception. -/
def processAll (ds : List ℚ) (ms : List ArtworkMeta)
    (store : ℕ → String → StoreOutcome) (reason : ℕ → ReasonOutcome) :
    List ArtworkRec :=
  ((ds.zip ms).enum).map fun p =>
    processArtworkRecommendation p.2.2 (match_score_of p.2.1)
      (store p.1 (buildSearchQuery p.2.2 p.1)) (reason p.1)

/-! ### Fast path: `get_fast_recommendations`
(routes/recommendations.py, lines 265-439) -/

/-- A FAISS-backed skeleton recommendation (lines 286-312). -/
def mkFastFaissRec (meta : ArtworkMeta) (score : ℚ) : ArtworkRec :=
  { id := meta.id.getD "unknown"
    title := meta.title.getD "Untitled"
    artist := meta.artist.getD "Unknown Artist"
    price := "$" ++ toString (meta.price.getD 0)
    image_url := meta.image_url.getD placeholderURL
    thumbnail_url := meta.thumbnail_url
    match_score := score
    tags := meta.tags
    reasoning := fallbackTemplate (meta.style.getD "contemporary") score
    stores := []
    dimensions := some (meta.dimensions.getD "Standard")
    medium := meta.medium
    style := some (meta.style.getD "Contemporary")
    purchase_url := none
    download_url := none
    source := some "FAISS Database" }

/-- A curated local-catalog recommendation of the fast path
(lines 340-366). -/
def mkFastLocalRec (roomStyle : String) (item : LocalItem) : ArtworkRec :=
  { id := item.id
    title := item.title
    artist := item.artist
    price := item.price
    image_url := item.image_url
    thumbnail_url := some item.thumbnail_url
    style := some (titleCase (underscoreToSpace item.category))
    tags := item.tags
    dimensions := some (toString item.width ++ "x" ++ toString item.height)
    match_score := 92
    reasoning := "Expertly curated " ++ underscoreToSpace item.category ++
      " artwork that perfectly complements your " ++ strLower roomStyle ++
      " aesthetic. High-quality print available for instant download."
    download_url := some item.download_url
    source := some "Local Catalog" }

/-- An online recommendation appended by the fast path (lines 395-411). -/
def mkOnlineRec (roomStyle : String) (item : StoreItem) (url : String)
    (recsLen : ℕ) : ArtworkRec :=
  { id := item.id.getD ("online-" ++ toString recsLen)
    title := item.title.getD "Artwork"
    artist := item.artist.getD "Various Artists"
    price := item.price.getD "Price varies"
    image_url := url
    thumbnail_url := item.thumbnail_url
    match_score := 88
    tags := item.tags
    reasoning := ""
    stores := []
    dimensions := item.dimensions
    style := some (item.style.getD roomStyle)
    purchase_url := item.purchase_url
    source := some (item.source.getD "Online") }

/-- The online-result loop of the fast path (lines 380-417): skip items
without a valid, non-placeholder image; skip items whose visual identity
key is already in the accumulated `seen_photo_ids` set; otherwise append
(recording the key) and stop after two additions. -/
def addOnline (roomStyle : String) :
    List StoreItem → List String → ℕ → ℕ → List ArtworkRec
  | [], _, _, _ => []
  | item :: rest, seen, recsLen, added =>
    let url := item.image_url.getD ""
    if url = "" ∨ url = placeholderURL then
      addOnline roomStyle rest seen recsLen added
    else
      let pid := extract_photo_id url
      if pid ∈ seen then addOnline roomStyle rest seen recsLen added
      else
        let r := mkOnlineRec roomStyle item url recsLen
        if 2 ≤ added + 1 then [r]
        else r :: addOnline roomStyle rest (pid :: seen) (recsLen + 1) (added + 1)

/-- Environment of one fast-path request: the (possibly failed)
construction of the FAISS client singleton, the oracle outcomes of the
fallible sub-operations, the catalog state and the sampling oracle. -/
structure FastEnv where
  clientResult : Except Unit FAISSClient := .ok {}
  qInv : ℚ := 1
  faissBlockFails : Bool := false
  catalog : List LocalItem := []
  randSample : List LocalItem := []
  online : StoreOutcome := .timeout

/-- `get_fast_recommendations` (lines 265-439).  `Except.error ()`
models the outer `except Exception` handler re-raising as an
`HTTPException(500)`; every fallible sub-operation except the client
construction is locally guarded by the source's `try/except` blocks. -/
def get_fast_recommendations (req : RecommendationRequest) (env : FastEnv) :
    Except Unit RecommendationResponse :=
  match env.clientResult with
  | .error _ => .error ()
  | .ok c =>
    let faissRecs :=
      if req.style_vector ≠ [] ∧ ¬ env.faissBlockFails then
        let dm := c.search req.style_vector env.qInv req.limit
        (dm.1.zip dm.2).map fun p => mkFastFaissRec p.2 (match_score_of p.1)
      else []
    let rs := roomStyleOf req
    let local_items := get_local_catalog_recommendations env.catalog rs 2 env.randSample
    let seen := local_items.map fun it => extract_photo_id it.image_url
    let localRecs := local_items.map (mkFastLocalRec rs)
    let withLocal := faissRecs ++ localRecs
    let onlineRecs :=
      match env.online with
      | .ok items => addOnline rs items seen withLocal.length 0
      | .timeout => []
      | .failed => []
    let all := withLocal ++ onlineRecs
    let sorted := all.insertionSort fun a b => b.match_score ≤ a.match_score
    .ok { recommendations := sorted.take req.limit
          total_matches := sorted.length
          trends := [] }

/-! ### Full path: `get_recommendations`
(routes/recommendations.py, lines 442-634) -/

/-- Construction of one recommendation in `_get_mock_recommendations`'s
primary branch (lines 777-817).  Python indexes `item["id"]`,
`item["title"]`, `item["artist"]`, `item["price"]`, `item["image_url"]`
and `item["source"]` directly, so a missing key raises `KeyError`
(caught by the surrounding `try`, hence the `Option` result).  The
`stores`/`medium` sub-dictionaries carry no verified content and are
left at their defaults. -/
def mkMockStoreRec (style : String) (item : StoreItem) (idx : ℕ)
    (reasoning : String) : Option ArtworkRec :=
  match item.id, item.title, item.artist, item.price, item.image_url, item.source with
  | some id, some title, some artist, some price, some image_url, some src =>
    some { id := id
           title := title
           artist := artist
           price := price
           image_url := image_url
           thumbnail_url := some (item.thumbnail_url.getD image_url)
           match_score := 95 - 3 * idx
           tags := if item.tags.isEmpty then [style] else item.tags
           reasoning := reasoning
           stores := []
           dimensions := some (item.dimensions.getD "Multiple sizes available")
           style := some ((if item.tags.isEmpty then [style] else item.tags).headD style)
           purchase_url := item.purchase_url
           download_url := item.download_url
           source := some src }
  | _, _, _, _, _, _ => none

/-- The static fallback data of `_get_mock_recommendations`
(lines 826-869), restricted to the modelled fields. -/
def mock_data_raw : List ArtworkRec :=
  [{ id := "artwork_001"
     title := "Abstract Geometric Canvas"
     artist := "Modern Art Studio"
     price := "$249"
     image_url := "https://images.unsplash.com/photo-1541961017774-22349e4a1262?w=800"
     thumbnail_url := some "https://images.unsplash.com/photo-1541961017774-22349e4a1262?w=400"
     match_score := 95
     tags := ["Modern", "Abstract", "Geometric"]
     dimensions := some "24x36 inches"
     medium := some "Canvas Print"
     style := some "Modern" },
   { id := "artwork_002"
     title := "Botanical Line Art Print"
     artist := "Nature Studio"
     price := "$129"
     image_url := "https://images.unsplash.com/photo-1513519245088-0e12902e35ca?w=800"
     thumbnail_url := some "https://images.unsplash.com/photo-1513519245088-0e12902e35ca?w=400"
     match_score := 92
     tags := ["Botanical", "Minimalist"]
     dimensions := some "18x24 inches"
     medium := some "Framed Print"
     style := some "Contemporary" },
   { id := "artwork_003"
     title := "Sunset Watercolor"
     artist := "Color Waves"
     price := "$189"
     image_url := "https://images.unsplash.com/photo-1578926375605-eaf7559b0220?w=800"
     thumbnail_url := some "https://images.unsplash.com/photo-1578926375605-eaf7559b0220?w=400"
     match_score := 88
     tags := ["Watercolor", "Warm Tones"]
     dimensions := some "20x30 inches"
     medium := some "Watercolor Print"
     style := some "Abstract" }]

/-- `_get_mock_recommendations` (lines 755-884): try real store data and
on any failure (store exception or missing key) fall back to the static
list.  `mockReason` is the text produced by `generate_reasoning`, which
is total (chat_agent.py catches every error and falls back to a
template). -/
def get_mock_recommendations (style : String) (limit : ℕ)
    (mockStore : Except Unit (List StoreItem)) (mockReason : ℕ → String) :
    List ArtworkRec :=
  let staticRecs := (mock_data_raw.take limit).enum.map fun p =>
    { p.2 with reasoning := mockReason p.1 }
  match mockStore with
  | .ok items =>
    match (items.take limit).enum.mapM
        (fun p => mkMockStoreRec style p.2 p.1 (mockReason p.1)) with
    | some recs => recs
    | none => staticRecs
  | .error _ => staticRecs

/-- A curated local-catalog recommendation of the full path
(lines 540-579). -/
def mkLocalRecFull (roomStyle : String) (item : LocalItem)
    (reason : ReasonOutcome) : ArtworkRec :=
  { id := item.id
    title := item.title
    artist := item.artist
    price := item.price
    image_url := item.image_url
    thumbnail_url := some item.thumbnail_url
    style := some (titleCase (underscoreToSpace item.category))
    tags := item.tags
    dimensions := some (toString item.width ++ "x" ++ toString item.height)
    match_score := 85
    reasoning :=
      match reason with
      | .ok s => s
      | .failed => "This curated " ++ underscoreToSpace item.category ++
          " piece is expertly selected to complement your " ++
          strLower roomStyle ++ " style with 85% compatibility."
    download_url := some item.download_url
    source := some "📁 Local Catalog" }

/-- Python truthiness of `user_location.get('latitude')` (absent or `0.0`
is falsy). -/
def qTruthy : Option ℚ → Bool
  | none => false
  | some x => decide (x ≠ 0)

/-- The nearby-store block (lines 586-619): on success with a non-empty
store list, attach the five closest stores to every recommendation;
any failure leaves the recommendations unchanged. -/
def attachStores (req : RecommendationRequest)
    (geo : Except Unit (List NearbyStore)) (recs : List ArtworkRec) :
    List ArtworkRec :=
  match req.user_location with
  | some loc =>
    if qTruthy loc.1 ∧ qTruthy loc.2.1 then
      match geo with
      | .ok stores =>
        if stores.isEmpty then recs
        else recs.map fun r => { r with stores := stores.take 5 }
      | .error _ => recs
    else recs
  | none => recs

/-- Environment of one full-path request. -/
structure FullEnv where
  clientResult : Except Unit FAISSClient := .ok {}
  qInv : ℚ := 1
  faissBlockFails : Bool := false
  trends : Except Unit (List Trend) := .error ()
  store : ℕ → String → StoreOutcome := fun _ _ => .timeout
  reason : ℕ → ReasonOutcome := fun _ => .failed
  mockStore : Except Unit (List StoreItem) := .error ()
  mockReason : ℕ → String := fun _ => ""
  localReason : ℕ → ReasonOutcome := fun _ => .failed
  catalog : List LocalItem := []
  randSample : List LocalItem := []
  geo : Except Unit (List NearbyStore) := .error ()

/-- The FAISS-backed candidate recommendations of the full path
(lines 476-515): empty when the style vector is absent or the FAISS
block raised (caught); otherwise the gathered parallel enrichment of
the search hits. -/
def faissCandidateRecs (req : RecommendationRequest) (env : FullEnv)
    (c : FAISSClient) : List ArtworkRec :=
  if req.style_vector ≠ [] ∧ ¬ env.faissBlockFails then
    let dm := c.search req.style_vector env.qInv req.limit
    processAll dm.1 dm.2 env.store env.reason
  else []

/-- Lines 517-524: fall back to `_get_mock_recommendations` when the
FAISS stage produced nothing. -/
def fullCandidates (req : RecommendationRequest) (env : FullEnv)
    (c : FAISSClient) : List ArtworkRec :=
  if (faissCandidateRecs req env c).isEmpty then
    get_mock_recommendations (roomStyleOf req) req.limit env.mockStore env.mockReason
  else faissCandidateRecs req env c

/-- Lines 537-579: the (at most two) curated catalog recommendations of
the full path. -/
def fullLocalRecs (req : RecommendationRequest) (env : FullEnv) : List ArtworkRec :=
  ((get_local_catalog_recommendations env.catalog (roomStyleOf req) 2
      env.randSample).enum).map fun p =>
    mkLocalRecFull (roomStyleOf req) p.2 (env.localReason p.1)

/-- `get_recommendations` (lines 442-634).  `Except.error ()` models the
outer `except Exception` handler re-raising as `HTTPException(500)`;
it is reachable only through `get_faiss_client()` (line 472), whose
`load_index` re-raises when the persisted index exists but cannot be
read.  All other fallible sub-operations are locally guarded.  The mix
at lines 533-583 keeps only the first candidate
(`recommendations[:1]`) and prepends the catalog recommendations. -/
def get_recommendations (req : RecommendationRequest) (env : FullEnv) :
    Except Unit RecommendationResponse :=
  match env.clientResult with
  | .error _ => .error ()
  | .ok c =>
    let trendList := match env.trends with
      | .ok ts => ts
      | .error _ => []
    let mixed := fullLocalRecs req env ++ (fullCandidates req env c).take 1
    let final := attachStores req env.geo mixed
    .ok { recommendations := final
          total_matches := final.length
          trends := (trendList.take 5).map (·.style) }

/-- Recommendations of a route result (`[]` for the HTTP-500 outcome). -/
def respRecs (x : Except Unit RecommendationResponse) : List ArtworkRec :=
  match x with
  | .ok r => r.recommendations
  | .error _ => []

/-! ### `RecommendationRequest.limit` validation
(models/recommendation.py, line 47) -/

/-- pydantic `Field(default=3, ge=1, le=50)`: an absent value defaults
to 3; a present value outside `[1, 50]` is *rejected* (`none`; FastAPI
then answers 422 before the route body runs). -/
def limit_field (given : Option ℤ) : Option ℤ :=
  match given with
  | none => some 3
  | some l => if 1 ≤ l ∧ l ≤ 50 then some l else none

/-- The *claimed* semantics of the spec sentence "`limit` is clamped to
a supported range": out-of-range values are mapped into `[1, 50]` and
every request is accepted.  Kept only to be compared with `limit_field`. -/
def limit_clamped_spec (given : Option ℤ) : ℤ :=
  match given with
  | none => 3
  | some l => max 1 (min 50 l)

/-- The *claimed* per-candidate enrichment of the spec sentence "the
task's first usable result (valid image, non-placeholder) replaces the
defaults": like `processArtworkRecommendation`, but only results with a
present, non-empty, non-placeholder image may replace.  Kept only to be
compared with `processArtworkRecommendation`. -/
def processArtwork_spec (meta : ArtworkMeta) (score : ℚ)
    (store : StoreOutcome) (reason : ReasonOutcome) : ArtworkRec :=
  let usable := fun (r : StoreItem) =>
    r.image_url.getD "" ≠ "" ∧ r.image_url.getD "" ≠ placeholderURL
  processArtworkRecommendation meta score
    (match store with
     | .ok rs => .ok (rs.filter fun r => decide (usable r))
     | .timeout => .timeout
     | .failed => .failed)
    reason

/-! ## Shared helper lemmas -/

theorem length_filterMap_get (l : List (ℚ × ℕ)) (ms : List ArtworkMeta)
    (h : ∀ p ∈ l, p.2 < ms.length) :
    (l.filterMap fun p => ms.get? p.2).length = l.length := by
  induction l with
  | nil => rfl
  | cons a t ih =>
    have ha : ms.get? a.2 = some (ms.get ⟨a.2, h a (List.mem_cons_self a t)⟩) :=
      List.get?_eq_get (h a (List.mem_cons_self a t))
    rw [List.filterMap_cons, ha, List.length_cons,
      ih fun p hp => h p (List.mem_cons_of_mem a hp)]
    rfl

/-! ## C1: VectorMatcher search contract -/

/-- C1.  For every query vector, reciprocal-norm factor and `k ≥ 0`,
`FAISSClient.search` returns parallel (distance, metadata) lists of
length at most `min k (index size)`, with distances in non-decreasing
order; an empty index (including one that was never loaded) yields the
empty result rather than an error. -/
theorem C1_search_contract (c : FAISSClient) (q : List ℚ) (qInv : ℚ) (k : ℕ) :
    (c.search q qInv k).1.length = (c.search q qInv k).2.length ∧
    (c.search q qInv k).1.length ≤ min k c.get_total_vectors ∧
    (c.search q qInv k).1.Sorted (· ≤ ·) ∧
    (c.get_total_vectors = 0 → c.search q qInv k = ([], [])) := by
  obtain ⟨idx, ms⟩ := c
  match idx with
  | none =>
    refine ⟨rfl, by simp [FAISSClient.search], by simp [FAISSClient.search], fun _ => rfl⟩
  | some vs =>
    by_cases h0 : vs.length = 0
    · refine ⟨by simp [FAISSClient.search, h0], by simp [FAISSClient.search, h0],
        by simp [FAISSClient.search, h0], fun _ => by simp [FAISSClient.search, h0]⟩
    · have hsize : FAISSClient.get_total_vectors ⟨some vs, ms⟩ = vs.length := rfl
      have hsearch : FAISSClient.search ⟨some vs, ms⟩ q qInv k =
          ((((indexSearch vs (normalize_L2 q qInv) (min k vs.length)).filter
              (fun p => p.2 < ms.length)).map Prod.fst),
           (((indexSearch vs (normalize_L2 q qInv) (min k vs.length)).filter
              (fun p => p.2 < ms.length)).filterMap fun p => ms.get? p.2)) := by
        simp only [FAISSClient.search, if_neg h0]
      set kept := (indexSearch vs (normalize_L2 q qInv) (min k vs.length)).filter
        (fun p => p.2 < ms.length) with hkept
      have hmem : ∀ p ∈ kept, p.2 < ms.length := by
        intro p hp
        simpa using List.of_mem_filter hp
      have hlen : (indexSearch vs (normalize_L2 q qInv) (min k vs.length)).length
          ≤ min k vs.length := by
        rw [indexSearch, List.length_take]
        exact min_le_left _ _
      have hsorted : List.Pairwise (fun a b : ℚ × ℕ => a.1 ≤ b.1)
          (indexSearch vs (normalize_L2 q qInv) (min k vs.length)) := by
        haveI : IsTotal (ℚ × ℕ) fun a b : ℚ × ℕ => a.1 ≤ b.1 :=
          ⟨fun a b => le_total a.1 b.1⟩
        haveI : IsTrans (ℚ × ℕ) fun a b : ℚ × ℕ => a.1 ≤ b.1 :=
          ⟨fun _ _ _ h1 h2 => le_trans h1 h2⟩
        rw [indexSearch]
        exact List.Pairwise.sublist (List.take_sublist _ _)
          (List.sorted_insertionSort _ _)
      rw [hsearch]
      refine ⟨?_, ?_, ?_, fun hz => absurd (hsize ▸ hz) h0⟩
      · simp only [List.length_map]
        exact (length_filterMap_get _ ms hmem).symm
      · simp only [List.length_map, hsize]
        exact le_trans (le_trans (List.length_filter_le _ _) hlen) le_rfl
      · exact (List.pairwise_map).2 (List.Pairwise.sublist (List.filter_sublist _) hsorted)

/-- Closed instance of `C1_search_contract` discharging its inner
hypothesis at a concrete empty client. -/
theorem C1_search_contract_witness :
    FAISSClient.get_total_vectors {} = 0 ∧
    FAISSClient.search {} [1] 1 3 = ([], []) :=
  ⟨rfl, (C1_search_contract {} [1] 1 3).2.2.2 rfl⟩

/-! ## C2: match score formula -/

/-- C2.  For every distance `d ≥ 0` the match score computed by both
recommendation paths equals `100 / (1 + d)`, lies in `(0, 100]`, and is
strictly decreasing in the distance. -/
theorem C2_match_score (d d' : ℚ) (hd : 0 ≤ d) (hdd : d < d') :
    match_score_of d = 100 / (1 + d) ∧
    0 < match_score_of d ∧
    match_score_of d ≤ 100 ∧
    match_score_of d' < match_score_of d := by
  have h1 : (0 : ℚ) < 1 + d := by linarith
  have h1' : (0 : ℚ) < 1 + d' := by linarith
  have heq : ∀ x : ℚ, match_score_of x = 100 / (1 + x) := fun x => by
    rw [match_score_of]; ring
  refine ⟨heq d, ?_, ?_, ?_⟩
  · rw [heq d]
    exact div_pos (by norm_num) h1
  · rw [heq d, div_le_iff₀ h1]
    have : (0 : ℚ) ≤ 100 * d := mul_nonneg (by norm_num) hd
    linarith
  · rw [heq d, heq d']
    have hlt : 1 + d < 1 + d' := by linarith
    exact div_lt_div_of_pos_left (by norm_num) h1 hlt

/-- Closed instance of `C2_match_score` at `d = 1`, `d' = 3`. -/
theorem C2_match_score_witness :
    (0 : ℚ) ≤ 1 ∧ (1 : ℚ) < 3 ∧
    (match_score_of 1 = 100 / (1 + 1) ∧
     0 < match_score_of 1 ∧
     match_score_of 1 ≤ 100 ∧
     match_score_of 3 < match_score_of 1) :=
  ⟨by norm_num, by norm_num, C2_match_score 1 3 (by norm_num) (by norm_num)⟩

/-! ## C7: limit validation -/

/-- C7 counterexample.  The claim says an out-of-range `limit` is
*clamped* into `[1, 50]`; pydantic's `Field(ge=1, le=50)` instead
*rejects* the request: `limit = 51` yields a validation error (`none`),
not the clamped value `50`. -/
theorem C7_counterexample :
    limit_field (some 51) = none ∧ limit_clamped_spec (some 51) = 50 := by
  constructor <;> with_unfolding_all decide

/-- C7 amended.  `limit` defaults to 3 when absent and is *validated*
against `[1, 50]` — an out-of-range value is rejected before any
pipeline work begins — so every accepted request proceeds with a limit
in that range (and with its original value). -/
theorem C7_amended :
    limit_field none = some 3 ∧
    ∀ l l', limit_field (some l) = some l' → l' = l ∧ 1 ≤ l' ∧ l' ≤ 50 := by
  refine ⟨rfl, fun l l' h => ?_⟩
  by_cases hb : 1 ≤ l ∧ l ≤ 50
  · simp only [limit_field, if_pos hb, Option.some.injEq] at h
    exact ⟨h.symm, h ▸ hb.1, h ▸ hb.2⟩
  · simp [limit_field, if_neg hb] at h

/-- Closed instance of `C7_amended` at `limit = 5`. -/
theorem C7_amended_witness : (5 : ℤ) = 5 ∧ (1 : ℤ) ≤ 5 ∧ (5 : ℤ) ≤ 50 :=
  C7_amended.2 5 5 (by decide)

/-! ## C5: provider chain policy -/

theorem runStages_append (env : ProviderOracle) (q : String) (limit : ℕ)
    (l1 l2 : List (Provider × Bool)) (s : ChainState) :
    runStages env q limit (l1 ++ l2) s =
      runStages env q limit l2 (runStages env q limit l1 s) := by
  induction l1 generalizing s with
  | nil => rfl
  | cons pk l ih =>
    simp only [List.cons_append, runStages]
    exact ih _

theorem stageRun_of_ge (env : ProviderOracle) (q : String) (limit : ℕ)
    (p : Provider) (key : Bool) (s : ChainState)
    (h : limit ≤ s.results.length) :
    stageRun env q limit p key s = s := by
  rw [stageRun, if_neg]
  intro hc
  exact absurd hc.2 (not_lt.2 h)

theorem runStages_of_ge (env : ProviderOracle) (q : String) (limit : ℕ)
    (l : List (Provider × Bool)) (s : ChainState)
    (h : limit ≤ s.results.length) :
    runStages env q limit l s = s := by
  induction l with
  | nil => rfl
  | cons pk l ih => rw [runStages, stageRun_of_ge env q limit pk.1 pk.2 s h, ih]

theorem runStages_invoked (env : ProviderOracle) (q : String) (limit : ℕ) :
    ∀ (l : List (Provider × Bool)) (s : ChainState),
    ∃ t, (runStages env q limit l s).invoked = s.invoked ++ t ∧
      t.Sublist ((l.filter fun pk => pk.2).map Prod.fst) := by
  intro l
  induction l with
  | nil => exact fun s => ⟨[], by simp [runStages], List.nil_sublist _⟩
  | cons pk l ih =>
    intro s
    rw [runStages]
    by_cases hg : pk.2 = true ∧ s.results.length < limit
    · obtain ⟨t, ht, hsub⟩ := ih (stageRun env q limit pk.1 pk.2 s)
      refine ⟨pk.1 :: t, ?_, ?_⟩
      · rw [ht, stageRun, if_pos hg]
        simp
      · rw [List.filter_cons, if_pos (by simpa using hg.1)]
        simpa using List.Sublist.cons₂ pk.1 hsub
    · obtain ⟨t, ht, hsub⟩ := ih s
      have hs : stageRun env q limit pk.1 pk.2 s = s := by
        rw [stageRun, if_neg hg]
      refine ⟨t, by rw [hs, ht], ?_⟩
      rw [List.filter_cons]
      by_cases hk : pk.2 = true
      · rw [if_pos (by simpa using hk)]
        exact hsub.trans (List.sublist_cons_self _ _)
      · rw [if_neg (by simpa using hk)]
        exact hsub

/-- Membership in the stage list determines the credential flag. -/
theorem mem_stagesOf (a : StoreAgent) (pk : Provider × Bool)
    (h : pk ∈ stagesOf a) : pk.2 = providerKey a pk.1 := by
  rw [stagesOf] at h
  obtain ⟨p, _, rfl⟩ := List.mem_map.1 h
  rfl

/-- C5.  `search_artwork` consults the providers in the fixed priority
order Unsplash, Tavily, Pixabay, Pexels, Google (the invoked providers
form an in-order sublist of that chain); a provider whose credential is
absent is never invoked (and a provider failure is absorbed, never
raised); at most `limit` results are returned; and once the accumulated
result count of a stage prefix has reached `limit`, running any further
stages invokes no additional provider. -/
theorem C5_provider_chain (a : StoreAgent) (env : ProviderOracle)
    (query : String) (style color : Option String) (limit : ℕ) :
    (search_artwork a env query style color limit).2.Sublist chainOrder ∧
    (∀ p, providerKey a p = false →
      p ∉ (search_artwork a env query style color limit).2) ∧
    (search_artwork a env query style color limit).1.length ≤ limit ∧
    (∀ l1 l2 s,
      limit ≤ (runStages env (fullQuery query style color) limit l1 s).results.length →
      (runStages env (fullQuery query style color) limit (l1 ++ l2) s).invoked =
        (runStages env (fullQuery query style color) limit l1 s).invoked) := by
  obtain ⟨t, ht, hsub⟩ :=
    runStages_invoked env (fullQuery query style color) limit (stagesOf a) {}
  have hinv : (search_artwork a env query style color limit).2 = t := by
    simp only [search_artwork]
    rw [ht]
    rfl
  have hmapfst : (stagesOf a).map Prod.fst = chainOrder := by
    rw [stagesOf, List.map_map]
    rfl
  refine ⟨?_, ?_, ?_, ?_⟩
  · rw [hinv]
    exact hsub.trans (((List.filter_sublist (stagesOf a)).map Prod.fst).trans
      (hmapfst ▸ List.Sublist.refl _))
  · intro p hp hmem
    rw [hinv] at hmem
    have := hsub.subset hmem
    obtain ⟨pk, hpk, rfl⟩ := List.mem_map.1 this
    have hf := List.of_mem_filter hpk
    have hkey := mem_stagesOf a pk (List.mem_of_mem_filter hpk)
    rw [hkey] at hf
    rw [hp] at hf
    exact Bool.noConfusion hf
  · simp only [search_artwork]
    exact List.length_take_le _ _
  · intro l1 l2 s h
    rw [runStages_append,
      runStages_of_ge env (fullQuery query style color) limit l2 _ h]

/-- Closed instance of `C5_provider_chain`: with only an Unsplash
credential and a one-item Unsplash answer, the hypotheses of the missing
credential and early-stop conjuncts are discharged concretely. -/
theorem C5_provider_chain_witness :
    (Provider.tavily ∉ (search_artwork { unsplash_access_key := true }
      (fun _ _ => .ok [{}]) "abstract" none none 1).2) ∧
    (runStages (fun _ _ => .ok [{}]) (fullQuery "abstract" none none) 1
        ([] ++ [(Provider.google, true)]) { results := [{}] }).invoked =
      (runStages (fun _ _ => .ok [{}]) (fullQuery "abstract" none none) 1
        [] { results := [{}] }).invoked :=
  ⟨(C5_provider_chain { unsplash_access_key := true } (fun _ _ => .ok [{}])
      "abstract" none none 1).2.1 .tavily rfl,
   (C5_provider_chain { unsplash_access_key := true } (fun _ _ => .ok [{}])
      "abstract" none none 1).2.2.2 [] [(Provider.google, true)]
      { results := [{}] } (by decide)⟩

/-! ## C6: per-candidate enrichment -/

/-- Concrete input for the C6 counterexample: empty FAISS metadata and a
store result whose image is exactly the placeholder URL. -/
def C6meta : ArtworkMeta := {}

def C6item : StoreItem :=
  { title := some "Store Piece", image_url := some placeholderURL }

/-- C6 counterexample.  The claim says only the first *usable* result
(valid image, non-placeholder) replaces the VectorMatcher defaults.  The
code takes `store_results[0]` unconditionally: a successful search whose
first (and only) result carries the placeholder image still replaces the
defaults (title becomes "Store Piece", image stays the placeholder),
whereas the claimed behaviour would keep the defaults ("Untitled"). -/
theorem C6_counterexample :
    processArtworkRecommendation C6meta 50 (.ok [C6item]) .failed ≠
      processArtwork_spec C6meta 50 (.ok [C6item]) .failed ∧
    (processArtworkRecommendation C6meta 50 (.ok [C6item]) .failed).title
      = "Store Piece" ∧
    (processArtworkRecommendation C6meta 50 (.ok [C6item]) .failed).image_url
      = placeholderURL ∧
    (processArtwork_spec C6meta 50 (.ok [C6item]) .failed).title = "Untitled" := by
  refine ⟨?_, rfl, rfl, ?_⟩ <;> with_unfolding_all decide

/-- C6 amended.  On a successful store search with a non-empty result
list, the *first* result — usable or not — replaces the VectorMatcher
defaults for title, artist, price, image and purchase/download links
(fields absent from the result fall back per-field); on timeout or
failure the candidate is still returned with its VectorMatcher-sourced
metadata and no purchase links; and when every store task times out, the
gathered output still contains one VectorMatcher-backed recommendation
per candidate. -/
theorem C6_amended :
    (∀ (meta : ArtworkMeta) (score : ℚ) (r : StoreItem) (rs : List StoreItem)
        (ro : ReasonOutcome),
      (processArtworkRecommendation meta score (.ok (r :: rs)) ro).title
          = r.title.getD (meta.title.getD "Untitled") ∧
      (processArtworkRecommendation meta score (.ok (r :: rs)) ro).artist
          = r.artist.getD (meta.artist.getD "Unknown Artist") ∧
      (processArtworkRecommendation meta score (.ok (r :: rs)) ro).price
          = r.price.getD ("$" ++ toString (meta.price.getD 0)) ∧
      (processArtworkRecommendation meta score (.ok (r :: rs)) ro).image_url
          = r.image_url.getD (meta.image_url.getD placeholderURL) ∧
      (processArtworkRecommendation meta score (.ok (r :: rs)) ro).purchase_url
          = r.purchase_url ∧
      (processArtworkRecommendation meta score (.ok (r :: rs)) ro).download_url
          = r.download_url) ∧
    (∀ (meta : ArtworkMeta) (score : ℚ) (ro : ReasonOutcome),
      processArtworkRecommendation meta score .timeout ro
          = processArtworkRecommendation meta score .failed ro ∧
      (processArtworkRecommendation meta score .timeout ro).title
          = meta.title.getD "Untitled" ∧
      (processArtworkRecommendation meta score .timeout ro).artist
          = meta.artist.getD "Unknown Artist" ∧
      (processArtworkRecommendation meta score .timeout ro).image_url
          = meta.image_url.getD placeholderURL ∧
      (processArtworkRecommendation meta score .timeout ro).purchase_url = none ∧
      (processArtworkRecommendation meta score .timeout ro).match_score = score) ∧
    (∀ (ds : List ℚ) (ms : List ArtworkMeta) (ρ : ℕ → ReasonOutcome),
      (processAll ds ms (fun _ _ => .timeout) ρ).length = min ds.length ms.length ∧
      (processAll ds ms (fun _ _ => .timeout) ρ).map
          (fun rec => (rec.purchase_url, rec.download_url, rec.source))
        = List.replicate (min ds.length ms.length)
            ((none : Option String), (none : Option String), some "Local Catalog")) := by
  refine ⟨fun meta score r rs ro => ⟨rfl, rfl, rfl, rfl, rfl, rfl⟩,
    fun meta score ro => ⟨rfl, rfl, rfl, rfl, rfl, rfl⟩,
    fun ds ms ρ => ⟨?_, ?_⟩⟩
  · simp [processAll]
  · rw [processAll, List.map_map]
    have : ∀ p : ℕ × (ℚ × ArtworkMeta),
        ((fun rec : ArtworkRec => (rec.purchase_url, rec.download_url, rec.source)) ∘
          fun p : ℕ × (ℚ × ArtworkMeta) =>
            processArtworkRecommendation p.2.2 (match_score_of p.2.1)
              ((fun _ _ => StoreOutcome.timeout) p.1 (buildSearchQuery p.2.2 p.1)) (ρ p.1)) p
          = ((none : Option String), (none : Option String), some "Local Catalog") :=
      fun p => rfl
    rw [List.map_congr_left fun p _ => this p]
    simp [List.map_const']

/-! ## C3: visual identity deduplication -/

/-- Concrete fast-path request for the C3 counterexample. -/
def C3req : RecommendationRequest := { style_vector := [1], limit := 3 }

/-- Concrete fast-path environment for the C3 counterexample: one FAISS
hit and one online result referencing the same base image behind
different query parameters. -/
def C3env : FastEnv :=
  { clientResult := .ok
      { index := some [[1]]
        metadata := [{ image_url := some "https://example.com/pic.jpg?a=1"
                       title := some "FAISS Piece" }] }
    online := .ok [{ image_url := some "https://example.com/pic.jpg?b=2"
                     title := some "Online Piece" }] }

/-- C3 counterexample.  The fast endpoint accepts this request (no
error) and returns two recommendations whose visual identity keys are
both `https://example.com/pic.jpg`: FAISS-sourced results are never
key-checked against the online stream, so one response can contain two
recommendations with the same key, refuting the claimed invariant. -/
theorem C3_counterexample :
    (get_fast_recommendations C3req C3env).isOk = true ∧
    (respRecs (get_fast_recommendations C3req C3env)).map
        (fun r => extract_photo_id r.image_url)
      = ["https://example.com/pic.jpg", "https://example.com/pic.jpg"] ∧
    ¬ (respRecs (get_fast_recommendations C3req C3env)).Pairwise
        (fun a b => extract_photo_id a.image_url ≠ extract_photo_id b.image_url) := by
  refine ⟨?_, ?_, ?_⟩ <;> with_unfolding_all decide

/-- C3 amended.  The key-based deduplication holds exactly for the
online stream of the fast path: a candidate whose key is already in the
accumulated `seen` set (initialised with the local-catalog keys) is
dropped — the output is literally what it would be without that
candidate — and every appended online recommendation has a key that is
neither in `seen` nor equal to the key of any other appended online
recommendation.  (FAISS-sourced items are never key-checked, and the
full path performs no key deduplication at all; see the
counterexample.) -/
theorem C3_amended (style : String) :
    (∀ (item : StoreItem) (rest : List StoreItem) (seen : List String) (n a : ℕ),
      extract_photo_id (item.image_url.getD "") ∈ seen →
      addOnline style (item :: rest) seen n a = addOnline style rest seen n a) ∧
    (∀ (items : List StoreItem) (seen : List String) (n a : ℕ),
      (∀ r ∈ addOnline style items seen n a,
        extract_photo_id r.image_url ∉ seen) ∧
      (addOnline style items seen n a).Pairwise
        (fun r s => extract_photo_id r.image_url ≠ extract_photo_id s.image_url)) := by
  constructor
  · intro item rest seen n a hmem
    rw [addOnline]
    by_cases hv : item.image_url.getD "" = "" ∨ item.image_url.getD "" = placeholderURL
    · rw [if_pos hv]
    · rw [if_neg hv, if_pos hmem]
  · intro items
    induction items with
    | nil => exact fun seen n a => ⟨fun r hr => absurd hr (List.not_mem_nil r), List.Pairwise.nil⟩
    | cons item rest ih =>
      intro seen n a
      rw [addOnline]
      by_cases hv : item.image_url.getD "" = "" ∨ item.image_url.getD "" = placeholderURL
      · rw [if_pos hv]
        exact ih seen n a
      · rw [if_neg hv]
        by_cases hdup : extract_photo_id (item.image_url.getD "") ∈ seen
        · rw [if_pos hdup]
          exact ih seen n a
        · rw [if_neg hdup]
          by_cases hstop : 2 ≤ a + 1
          · rw [if_pos hstop]
            refine ⟨?_, List.pairwise_singleton _ _⟩
            intro r hr
            rw [List.mem_singleton] at hr
            subst hr
            exact hdup
          · rw [if_neg hstop]
            obtain ⟨ihmem, ihpw⟩ :=
              ih (extract_photo_id (item.image_url.getD "") :: seen) (n + 1) (a + 1)
            constructor
            · intro r hr
              rcases List.mem_cons.1 hr with hr | hr
              · subst hr
                exact hdup
              · exact fun hc => ihmem r hr (List.mem_cons_of_mem _ hc)
            · refine List.pairwise_cons.2 ⟨?_, ihpw⟩
              intro s hs
              have := ihmem s hs
              intro hc
              exact this (hc ▸ List.mem_cons_self _ _)

/-- Closed instance of `C3_amended`: one concrete online item is
appended with a fresh key, and the same item is dropped when its key is
pre-seeded in the `seen` set. -/
theorem C3_amended_witness :
    addOnline "Modern"
        [{ image_url := some "https://example.com/pic.jpg?b=2" } ]
        ["https://example.com/pic.jpg"] 0 0 =
      addOnline "Modern" [] ["https://example.com/pic.jpg"] 0 0 ∧
    extract_photo_id
        (mkOnlineRec "Modern" { image_url := some "https://example.com/pic.jpg?b=2" }
          "https://example.com/pic.jpg?b=2" 0).image_url ∉ (["x"] : List String) :=
  ⟨(C3_amended "Modern").1 _ [] ["https://example.com/pic.jpg"] 0 0
      (by with_unfolding_all decide),
   ((C3_amended "Modern").2
      [{ image_url := some "https://example.com/pic.jpg?b=2" }] ["x"] 0 0).1 _
      (by with_unfolding_all decide)⟩

/-! ## C4: curated catalog quota -/

/-- Number of catalog items relevant to a style (positive keyword
overlap, the relevance notion of `get_local_catalog_recommendations`). -/
def relevantCount (catalog : List LocalItem) (style : String) : ℕ :=
  (catalog.filter fun it => 0 < keywordScore style it).length

theorem local_items_length (catalog : List LocalItem) (style : String)
    (rand : List LocalItem) (h : 2 ≤ relevantCount catalog style) :
    (get_local_catalog_recommendations catalog style 2 rand).length = 2 := by
  have hcat : ¬ catalog.isEmpty = true := by
    intro he
    rw [List.isEmpty_iff] at he
    rw [relevantCount, he] at h
    simp at h
  have hslen :
      ((catalog.map fun it => (keywordScore style it, it)).filter
        fun p => 0 < p.1).length = relevantCount catalog style := by
    rw [List.filter_map, List.length_map, relevantCount]
    rfl
  have hsne : ¬ ((catalog.map fun it => (keywordScore style it, it)).filter
      fun p => 0 < p.1).isEmpty = true := by
    intro he
    rw [List.isEmpty_iff] at he
    rw [he] at hslen
    rw [← hslen] at h
    simp at h
  rw [get_local_catalog_recommendations, if_neg (by simpa using hcat),
    if_pos (by simpa using hsne)]
  rw [List.length_map, List.length_take,
    (List.perm_insertionSort _ _).length_eq, hslen]
  exact Nat.min_eq_left h

/-- `attachStores` never changes the `source` tag of a recommendation. -/
theorem attachStores_countP_source (req : RecommendationRequest)
    (geo : Except Unit (List NearbyStore)) (recs : List ArtworkRec) (s : String) :
    (attachStores req geo recs).countP (fun r => decide (r.source = some s))
      = recs.countP (fun r => decide (r.source = some s)) := by
  rcases hl : req.user_location with _ | loc
  · simp [attachStores, hl]
  · rcases geo with u | stores
    · simp [attachStores, hl]
    · simp only [attachStores, hl]
      split_ifs with h1 h2
      · rfl
      · rw [List.countP_map]
        exact List.countP_congr fun r _ => Iff.rfl
      · rfl

/-- The two-item relevant catalog used by the C4 input data. -/
def C4catalog : List LocalItem :=
  [{ id := "loc1", title := "Modern Canvas", artist := "A", price := "$10"
     image_url := "http://cat/img1.jpg", thumbnail_url := "t1"
     category := "abstract_art", description := "modern art" },
   { id := "loc2", title := "Modern Print", artist := "B", price := "$12"
     image_url := "http://cat/img2.jpg", thumbnail_url := "t2"
     category := "abstract_art", description := "modern decor" }]

/-- Concrete fast-path request for the C4 counterexample. -/
def C4req : RecommendationRequest :=
  { style_vector := [1], user_style := some "modern", limit := 2 }

/-- Concrete fast-path environment for the C4 counterexample: two FAISS
hits at distance 0 (score 100) next to the two relevant catalog items
(score 92). -/
def C4env : FastEnv :=
  { clientResult := .ok
      { index := some [[1], [1]]
        metadata := [{ image_url := some "http://f/1.jpg" },
                     { image_url := some "http://f/2.jpg" }] }
    catalog := C4catalog
    online := .timeout }

/-- C4 counterexample.  Even though the curated catalog holds two items
relevant to the requested style ("modern"), the fast path returns a
response with *zero* catalog-sourced items for `limit = 2`: the final
sort-and-truncate pushes the 92-score catalog items out behind the two
100-score FAISS items, refuting the claimed `min(2, limit)` quota. -/
theorem C4_counterexample :
    2 ≤ relevantCount C4env.catalog (roomStyleOf C4req) ∧
    (respRecs (get_fast_recommendations C4req C4env)).countP
      (fun r => decide (r.source = some "Local Catalog")) = 0 ∧
    (0 : ℕ) < min 2 C4req.limit := by
  refine ⟨?_, ?_, ?_⟩ <;> with_unfolding_all decide

/-- C4 amended.  The quota holds on the *full* path: whenever the
curated catalog has at least two items relevant to the requested style
(and the FAISS client construction did not fail), the response of
`get_recommendations` contains at least `min 2 limit` catalog-sourced
recommendations (in fact exactly two catalog items are merged).  The
fast path gives no such guarantee (see the counterexample). -/
theorem C4_amended (req : RecommendationRequest) (env : FullEnv)
    (hrel : 2 ≤ relevantCount env.catalog (roomStyleOf req))
    (hok : env.clientResult.isOk = true) :
    min 2 req.limit ≤ (respRecs (get_recommendations req env)).countP
      (fun r => decide (r.source = some "📁 Local Catalog")) := by
  obtain ⟨c, hc⟩ : ∃ c, env.clientResult = .ok c := by
    rcases henv : env.clientResult with v | v
    · rw [henv] at hok
      exact absurd hok (by simp [Except.isOk, Except.toBool])
    · exact ⟨v, rfl⟩
  simp only [get_recommendations, hc, respRecs]
  rw [attachStores_countP_source, List.countP_append]
  have hlocal : ∀ a ∈ (get_local_catalog_recommendations env.catalog (roomStyleOf req) 2
      env.randSample).enum,
      ((fun r : ArtworkRec => decide (r.source = some "📁 Local Catalog")) ∘
        fun p => mkLocalRecFull (roomStyleOf req) p.2 (env.localReason p.1)) a = true :=
    fun a _ => by simp [mkLocalRecFull]
  rw [fullLocalRecs, List.countP_map, List.countP_eq_length.2 hlocal, List.enum_length,
    local_items_length env.catalog (roomStyleOf req) env.randSample hrel]
  exact le_trans (min_le_left 2 req.limit) (Nat.le_add_right 2 _)

/-- Concrete full-path request for the C4 witness. -/
def C4Wreq : RecommendationRequest :=
  { style_vector := [], user_style := some "modern", limit := 3 }

/-- Concrete full-path environment for the C4 witness. -/
def C4Wenv : FullEnv :=
  { clientResult := .ok {}, catalog := C4catalog }

/-- Closed instance of `C4_amended`: a concrete full-path request over a
two-item relevant catalog yields at least `min 2 limit` catalog-sourced
recommendations. -/
theorem C4_amended_witness :
    min 2 C4Wreq.limit ≤ (respRecs (get_recommendations C4Wreq C4Wenv)).countP
      (fun r => decide (r.source = some "📁 Local Catalog")) :=
  C4_amended C4Wreq C4Wenv (by with_unfolding_all decide)
    (by with_unfolding_all decide)

/-! ## C8: failure propagation -/

/-- Concrete request for the C8 counterexample. -/
def C8req : RecommendationRequest := { style_vector := [1] }

/-- Full-path environment in which the persisted index file exists but
cannot be read: `load_index` re-raises, `get_faiss_client()` (called
inside the endpoint body) propagates, and the outer handler turns it
into an HTTP 500. -/
def C8env : FullEnv := { clientResult := mkFAISSClient true (.error ()) }

/-- Fast-path environment with the same broken index load. -/
def C8fastEnv : FastEnv := { clientResult := mkFAISSClient true (.error ()) }

/-- C8 counterexample.  An unreadable persisted index — an
"index unavailable" internal failure — makes both recommend endpoints
answer with the 5xx outcome (`Except.error ()` models the
`HTTPException(500)` re-raise), refuting the claim that no internal
failure produces a 5xx-class outcome. -/
theorem C8_counterexample :
    mkFAISSClient true (Except.error ()) = Except.error () ∧
    get_recommendations C8req C8env = Except.error () ∧
    get_fast_recommendations C8req C8fastEnv = Except.error () :=
  ⟨rfl, rfl, rfl⟩

/-- C8 amended.  Whenever the FAISS client construction succeeds, no
other modelled internal failure (trend failure, provider error or
timeout, zero candidates, reasoning failure, missing geo data, mock
fallbacks) can prevent either endpoint from returning a normal response,
and that response always satisfies
`total_matches = len(recommendations)` — so an empty list with
`total_matches = 0` is the only caller-visible failure shape. -/
theorem C8_amended :
    (∀ (req : RecommendationRequest) (env : FullEnv) (c : FAISSClient),
      env.clientResult = .ok c →
      ∃ r, get_recommendations req env = .ok r ∧
        r.total_matches = r.recommendations.length) ∧
    (∀ (req : RecommendationRequest) (env : FastEnv) (c : FAISSClient),
      env.clientResult = .ok c → 1 ≤ req.limit →
      ∃ r, get_fast_recommendations req env = .ok r ∧
        (r.total_matches = 0 ↔ r.recommendations = [])) := by
  constructor
  · intro req env c hc
    simp only [get_recommendations, hc]
    exact ⟨_, rfl, rfl⟩
  · intro req env c hc hlim
    simp only [get_fast_recommendations, hc]
    refine ⟨_, rfl, ?_⟩
    constructor
    · intro h
      have : _ = ([] : List ArtworkRec) := List.length_eq_zero.1 h
      rw [this, List.take_nil]
    · intro h
      rcases (List.take_eq_nil_iff.1 h) with h0 | h0
      · omega
      · rw [h0]
        rfl

/-- Closed instance of `C8_amended` on both endpoints with a concrete
healthy client and all-failing oracles (the defaults of the
environment records). -/
theorem C8_amended_witness :
    (∃ r, get_recommendations { style_vector := [1] }
        { clientResult := .ok {} } = .ok r ∧
      r.total_matches = r.recommendations.length) ∧
    (∃ r, get_fast_recommendations { style_vector := [1] }
        { clientResult := .ok {} } = .ok r ∧
      (r.total_matches = 0 ↔ r.recommendations = [])) :=
  ⟨C8_amended.1 { style_vector := [1] } { clientResult := .ok {} } {} rfl,
   C8_amended.2 { style_vector := [1] } { clientResult := .ok {} } {} rfl
     (by decide)⟩

/-! ## C10: the full-path mix is capped at 3 -/

theorem attachStores_length (req : RecommendationRequest)
    (geo : Except Unit (List NearbyStore)) (recs : List ArtworkRec) :
    (attachStores req geo recs).length = recs.length := by
  rcases hl : req.user_location with _ | loc
  · simp [attachStores, hl]
  · rcases geo with u | stores
    · simp [attachStores, hl]
    · simp only [attachStores, hl]
      split_ifs <;> simp

theorem local_items_length_le (catalog : List LocalItem) (style : String)
    (limit : ℕ) (rand : List LocalItem) :
    (get_local_catalog_recommendations catalog style limit rand).length ≤ limit := by
  simp only [get_local_catalog_recommendations]
  split_ifs with h1 h2
  · exact Nat.zero_le _
  · rw [List.length_take]
    exact le_trans (min_le_left _ _) (min_le_left _ _)
  · rw [List.length_map, List.length_take]
    exact min_le_left _ _

/-- Concrete full-path request with `limit = 1` for the closed part of
C10. -/
def C10req : RecommendationRequest :=
  { style_vector := [], user_style := some "modern", limit := 1 }

/-- Concrete full-path environment for the closed part of C10: two
relevant catalog items, failing mock-store oracle (static fallback). -/
def C10env : FullEnv :=
  { clientResult := .ok {}, catalog := C4catalog }

/-- C10.  In the full path the response always carries at most three
recommendations — the mix is `catalog recommendations (≤ 2)` followed by
`candidates[:1] (≤ 1)` — independently of the requested `limit`, which
neither bounds nor expands the final count: the concrete conjunct shows
a request with `limit = 1` still receiving 3 recommendations. -/
theorem C10_mix_capped :
    (∀ (req : RecommendationRequest) (env : FullEnv),
      (respRecs (get_recommendations req env)).length ≤ 3) ∧
    (∀ (req : RecommendationRequest) (env : FullEnv) (c : FAISSClient),
      env.clientResult = .ok c →
      respRecs (get_recommendations req env) =
        attachStores req env.geo
          (fullLocalRecs req env ++ (fullCandidates req env c).take 1) ∧
      (fullLocalRecs req env).length ≤ 2 ∧
      ((fullCandidates req env c).take 1).length ≤ 1) ∧
    (respRecs (get_recommendations C10req C10env)).length = 3 ∧
    C10req.limit = 1 := by
  have hshape : ∀ (req : RecommendationRequest) (env : FullEnv) (c : FAISSClient),
      env.clientResult = .ok c →
      respRecs (get_recommendations req env) =
        attachStores req env.geo
          (fullLocalRecs req env ++ (fullCandidates req env c).take 1) := by
    intro req env c hc
    simp only [get_recommendations, hc, respRecs]
  have hloc : ∀ (req : RecommendationRequest) (env : FullEnv),
      (fullLocalRecs req env).length ≤ 2 := by
    intro req env
    rw [fullLocalRecs, List.length_map, List.enum_length]
    exact local_items_length_le _ _ _ _
  refine ⟨?_, fun req env c hc => ⟨hshape req env c hc, hloc req env,
    List.length_take_le _ _⟩, ?_, rfl⟩
  · intro req env
    rcases hc : env.clientResult with u | c
    · simp [respRecs, get_recommendations, hc]
    · rw [hshape req env c hc, attachStores_length, List.length_append]
      have h1 := hloc req env
      have h2 : ((fullCandidates req env c).take 1).length ≤ 1 :=
        List.length_take_le _ _
      omega
  · with_unfolding_all decide

/-- Closed instance of `C10_mix_capped`'s structural conjunct at the
concrete C10 input. -/
theorem C10_mix_capped_witness :
    respRecs (get_recommendations C10req C10env) =
      attachStores C10req C10env.geo
        (fullLocalRecs C10req C10env ++
          (fullCandidates C10req C10env {}).take 1) ∧
    (fullLocalRecs C10req C10env).length ≤ 2 ∧
    ((fullCandidates C10req C10env {}).take 1).length ≤ 1 :=
  C10_mix_capped.2.1 C10req C10env {} rfl

end AiDecor
